import Mathlib

/-!
Shallow embedding of the core ray/hit data layer of the `embree-rs` crate
(`src/ray.rs`, `src/ray/packet.rs`, `src/context.rs`): scalar records,
fixed-width SoA packets, runtime-width views over flat buffers, and the
layout-compatible extension accessors.  Definitions mirror the Rust source;
the few places where the source lives outside the staged files (the `sys`
FFI struct layout, `soa.rs` iterators, the `INVALID_ID` constant) are
modelled from the specification and say so in their doc comments.
-/

set_option maxHeartbeats 1000000

namespace EmbreeRS

/-- Model of an IEEE-754 binary32 value: an exact integer for finite values,
plus the two infinities and NaN.  Rounding is not modelled; every float
constant appearing in this development (0, 1, 2, infinity) is an exactly
representable integer and every arithmetic result used is exact in
binary32. -/
inductive F32 where
  | finite : ℤ → F32
  | inf : F32
  | neginf : F32
  | nan : F32
deriving DecidableEq

/-- Float addition on the F32 model (exact on finite operands; IEEE rules for
the infinities; NaN absorbs). -/
def f32add : F32 → F32 → F32
  | F32.finite a, F32.finite b => F32.finite (a + b)
  | F32.finite _, F32.inf => F32.inf
  | F32.inf, F32.finite _ => F32.inf
  | F32.inf, F32.inf => F32.inf
  | F32.finite _, F32.neginf => F32.neginf
  | F32.neginf, F32.finite _ => F32.neginf
  | F32.neginf, F32.neginf => F32.neginf
  | F32.inf, F32.neginf => F32.nan
  | F32.neginf, F32.inf => F32.nan
  | F32.nan, _ => F32.nan
  | _, F32.nan => F32.nan

/-- Float multiplication on the F32 model (exact on finite operands; IEEE
rules for the infinities, with 0 * inf = NaN; NaN absorbs). -/
def f32mul : F32 → F32 → F32
  | F32.finite a, F32.finite b => F32.finite (a * b)
  | F32.finite a, F32.inf => if a = 0 then F32.nan else if 0 < a then F32.inf else F32.neginf
  | F32.inf, F32.finite a => if a = 0 then F32.nan else if 0 < a then F32.inf else F32.neginf
  | F32.finite a, F32.neginf => if a = 0 then F32.nan else if 0 < a then F32.neginf else F32.inf
  | F32.neginf, F32.finite a => if a = 0 then F32.nan else if 0 < a then F32.neginf else F32.inf
  | F32.inf, F32.inf => F32.inf
  | F32.neginf, F32.neginf => F32.inf
  | F32.inf, F32.neginf => F32.neginf
  | F32.neginf, F32.inf => F32.neginf
  | F32.nan, _ => F32.nan
  | _, F32.nan => F32.nan

/-- A three-component float vector, modelling Rust's `[f32; 3]`. -/
def V3 : Type := F32 × F32 × F32

instance : DecidableEq V3 := instDecidableEqProd

/-- Modelled from the spec: the `INVALID_ID` sentinel of the crate root
(`lib.rs` is not among the staged files).  It is embree's
`RTC_INVALID_GEOMETRY_ID`, i.e. `u32::MAX`. -/
def INVALID_ID : Nat := 4294967295

/-- The value of Rust's `u32::MAX`, used for the default ray mask. -/
def u32MAX : Nat := 4294967295

/-- Scalar ray record (`sys::RTCRay` as the crate constructs and reads it:
origin, parametric interval, direction, time, mask, id, flags).  Field types
follow the source: nine `f32` fields and three `u32` fields (u32 values are
modelled as `Nat`; no arithmetic is performed on them). -/
structure Ray where
  org_x : F32
  org_y : F32
  org_z : F32
  tnear : F32
  dir_x : F32
  dir_y : F32
  dir_z : F32
  time : F32
  tfar : F32
  mask : Nat
  id : Nat
  flags : Nat
deriving DecidableEq

/-- `Ray::segment` (src/ray.rs:101): explicit-interval constructor. -/
def Ray.segment (origin direction : V3) (tnear tfar : F32) : Ray :=
  { org_x := origin.1
    org_y := origin.2.1
    org_z := origin.2.2
    tnear := tnear
    dir_x := direction.1
    dir_y := direction.2.1
    dir_z := direction.2.2
    tfar := tfar
    time := F32.finite 0
    mask := u32MAX
    id := 0
    flags := 0 }

/-- `Ray::new` (src/ray.rs:78): default interval `[0, +inf)`. -/
def Ray.new (origin direction : V3) : Ray :=
  Ray.segment origin direction (F32.finite 0) F32.inf

/-- `Ray::new_with_id` (src/ray.rs:82). -/
def Ray.new_with_id (origin direction : V3) (id : Nat) : Ray :=
  { Ray.new origin direction with id := id }

/-- `Ray::org` (src/ray.rs:119). -/
def Ray.org (r : Ray) : V3 := (r.org_x, r.org_y, r.org_z)

/-- `Ray::dir` (src/ray.rs:122). -/
def Ray.dir (r : Ray) : V3 := (r.dir_x, r.dir_y, r.dir_z)

/-- Scalar hit record (`sys::RTCHit`): geometric normal, barycentric u/v,
primitive id, geometry id, and the one-element instance-id stack (`instID`
models `instID: [u32; 1]`). -/
structure Hit where
  Ng_x : F32
  Ng_y : F32
  Ng_z : F32
  u : F32
  v : F32
  primID : Nat
  geomID : Nat
  instID : Nat
deriving DecidableEq

/-- `impl Default for Hit` (src/ray.rs:188-201): the canonical
no-intersection sentinel. -/
def Hit.default : Hit :=
  { Ng_x := F32.finite 0
    Ng_y := F32.finite 0
    Ng_z := F32.finite 0
    u := F32.finite 0
    v := F32.finite 0
    primID := INVALID_ID
    geomID := INVALID_ID
    instID := INVALID_ID }

/-- Combined scalar ray/hit record (`sys::RTCRayHit`). -/
structure RayHit where
  ray : Ray
  hit : Hit
deriving DecidableEq

/-- `RayHit::new` (src/ray.rs:236): pairs the ray with the default hit. -/
def RayHit.new (ray : Ray) : RayHit := { ray := ray, hit := Hit.default }

/-- `RayHit::is_valid` (src/ray.rs:244): `self.hit.geomID != INVALID_ID`. -/
def RayHit.is_valid (rh : RayHit) : Bool := rh.hit.geomID != INVALID_ID

/-- `RayHit::hit_point` (src/ray.rs:247-254): `org + dir * tfar`
componentwise. -/
def RayHit.hit_point (rh : RayHit) : V3 :=
  let t := rh.ray.tfar
  (f32add rh.ray.org_x (f32mul rh.ray.dir_x t),
   f32add rh.ray.org_y (f32mul rh.ray.dir_y t),
   f32add rh.ray.org_z (f32mul rh.ray.dir_z t))

/-! ### Extension accessor layer (`AsRay` / `AsRayHit` / `AsIntersectContext`)

The trait methods are embedded as plain functions on each implementing type;
the `&`/`&mut` accessor pairs of the source collapse to two functions with
identical bodies, since the embedding is pure. -/

/-- `<Ray as AsRay>::as_ext` (src/ray.rs:141): always `None`. -/
def Ray.as_ext (_ : Ray) : Option Unit := none

/-- `<Ray as AsRay>::as_ext_mut` (src/ray.rs:142): always `None`. -/
def Ray.as_ext_mut (_ : Ray) : Option Unit := none

/-- `<RayHit as AsRay>::as_ext` (src/ray.rs:264): `Some(&self.hit)`. -/
def RayHit.asRay_as_ext (rh : RayHit) : Option Hit := some rh.hit

/-- `<RayHit as AsRay>::as_ext_mut` (src/ray.rs:266). -/
def RayHit.asRay_as_ext_mut (rh : RayHit) : Option Hit := some rh.hit

/-- `<RayHit as AsRayHit>::as_ext` (src/ray.rs:276): always `None`. -/
def RayHit.asRayHit_as_ext (_ : RayHit) : Option Unit := none

/-- `<RayHit as AsRayHit>::as_ext_mut` (src/ray.rs:278): always `None`. -/
def RayHit.asRayHit_as_ext_mut (_ : RayHit) : Option Unit := none

/-- Intersection-context flags (`RTCIntersectContextFlags` of the `sys`
crate; only the two values the wrapper constructs). -/
inductive CtxFlags where
  | coherent : CtxFlags
  | incoherent : CtxFlags
deriving DecidableEq

/-- Per-query intersection context (`RTCIntersectContext`): flags, optional
second-stage filter callback (modelled by presence only), and the one-element
instance-id stack slot. -/
structure IntersectContext where
  flags : CtxFlags
  filter : Option Unit
  instID : Nat
deriving DecidableEq

/-- `IntersectContext::new` (src/context.rs:84-90). -/
def IntersectContext.new (flags : CtxFlags) : IntersectContext :=
  { flags := flags, filter := none, instID := u32MAX }

/-- `<IntersectContext as AsIntersectContext>::as_extended`
(src/context.rs:100): always `None`. -/
def IntersectContext.as_extended (_ : IntersectContext) : Option Unit := none

/-- `<IntersectContext as AsIntersectContext>::as_mut_extended`
(src/context.rs:102): always `None`. -/
def IntersectContext.as_mut_extended (_ : IntersectContext) : Option Unit := none

/-- Extended intersection context (`IntersectContextExt<E>`,
src/context.rs:110-118): the base context followed by caller data. -/
structure IntersectContextExt (E : Type) where
  ctx : IntersectContext
  ext : E

/-- `<IntersectContextExt<E> as AsIntersectContext>::as_context`
(src/context.rs:140). -/
def IntersectContextExt.as_context {E : Type} (c : IntersectContextExt E) :
    IntersectContext := c.ctx

/-- `<IntersectContextExt<E> as AsIntersectContext>::as_extended`
(src/context.rs:144): always `Some(&self.ext)`. -/
def IntersectContextExt.as_extended {E : Type} (c : IntersectContextExt E) :
    Option E := some c.ext

/-- `<IntersectContextExt<E> as AsIntersectContext>::as_mut_extended`
(src/context.rs:146): always `Some(&mut self.ext)`. -/
def IntersectContextExt.as_mut_extended {E : Type} (c : IntersectContextExt E) :
    Option E := some c.ext

/-! ### Fixed-width SoA packets

The source generates `Ray4/8/16` and `Hit4/8/16` with a text-substitution
macro-like scheme that is uniform in the width `n`; the embedding is the
corresponding width-indexed family.  Per-field arrays `[T; n]` are modelled
as functions `Fin n → T`; Rust's in-place array store `a[i] = v` is
`Function.update`. -/

/-- SoA ray packet of width `n` (`sys::RTCRay4/8/16` as the crate constructs
and accesses them). -/
structure RayPkt (n : Nat) where
  org_x : Fin n → F32
  org_y : Fin n → F32
  org_z : Fin n → F32
  tnear : Fin n → F32
  dir_x : Fin n → F32
  dir_y : Fin n → F32
  dir_z : Fin n → F32
  time : Fin n → F32
  tfar : Fin n → F32
  mask : Fin n → Nat
  id : Fin n → Nat
  flags : Fin n → Nat

/-- `RayN::segment` of the packet impl (src/ray/packet.rs:91-120): builds
the SoA arrays from per-lane origins and directions, with `time = 0`,
`mask = u32::MAX`, `id = 0`, `flags = 0`. -/
def RayPkt.segment {n : Nat} (origin dir : Fin n → V3) (tnear tfar : Fin n → F32) :
    RayPkt n :=
  { org_x := fun i => (origin i).1
    org_y := fun i => (origin i).2.1
    org_z := fun i => (origin i).2.2
    tnear := tnear
    dir_x := fun i => (dir i).1
    dir_y := fun i => (dir i).2.1
    dir_z := fun i => (dir i).2.2
    time := fun _ => F32.finite 0
    tfar := tfar
    mask := fun _ => u32MAX
    id := fun _ => 0
    flags := fun _ => 0 }

/-- Packet `new` (src/ray/packet.rs:87-89): default interval `[0, +inf)`. -/
def RayPkt.new {n : Nat} (origin dir : Fin n → V3) : RayPkt n :=
  RayPkt.segment origin dir (fun _ => F32.finite 0) (fun _ => F32.inf)

/-- Packet `empty` (src/ray/packet.rs:122-129): zero origins and directions
with the default interval `[0, +inf)`. -/
def RayPkt.empty (n : Nat) : RayPkt n :=
  RayPkt.segment
    (fun _ => (F32.finite 0, F32.finite 0, F32.finite 0))
    (fun _ => (F32.finite 0, F32.finite 0, F32.finite 0))
    (fun _ => F32.finite 0)
    (fun _ => F32.inf)

/-- `SoARay::org` for packets (src/ray/packet.rs:141). -/
def RayPkt.org {n : Nat} (p : RayPkt n) (i : Fin n) : V3 :=
  (p.org_x i, p.org_y i, p.org_z i)

/-- `SoARay::set_org` for packets (src/ray/packet.rs:142-146). -/
def RayPkt.set_org {n : Nat} (p : RayPkt n) (i : Fin n) (o : V3) : RayPkt n :=
  { p with
    org_x := Function.update p.org_x i o.1
    org_y := Function.update p.org_y i o.2.1
    org_z := Function.update p.org_z i o.2.2 }

/-- `SoARay::dir` for packets (src/ray/packet.rs:148). -/
def RayPkt.dir {n : Nat} (p : RayPkt n) (i : Fin n) : V3 :=
  (p.dir_x i, p.dir_y i, p.dir_z i)

/-- `SoARay::set_dir` for packets (src/ray/packet.rs:149-153). -/
def RayPkt.set_dir {n : Nat} (p : RayPkt n) (i : Fin n) (d : V3) : RayPkt n :=
  { p with
    dir_x := Function.update p.dir_x i d.1
    dir_y := Function.update p.dir_y i d.2.1
    dir_z := Function.update p.dir_z i d.2.2 }

/-- `SoARay::set_tnear` for packets (src/ray/packet.rs:156). -/
def RayPkt.set_tnear {n : Nat} (p : RayPkt n) (i : Fin n) (t : F32) : RayPkt n :=
  { p with tnear := Function.update p.tnear i t }

/-- `SoARay::set_tfar` for packets (src/ray/packet.rs:159). -/
def RayPkt.set_tfar {n : Nat} (p : RayPkt n) (i : Fin n) (t : F32) : RayPkt n :=
  { p with tfar := Function.update p.tfar i t }

/-- `SoARay::set_time` for packets (src/ray/packet.rs:162). -/
def RayPkt.set_time {n : Nat} (p : RayPkt n) (i : Fin n) (t : F32) : RayPkt n :=
  { p with time := Function.update p.time i t }

/-- `SoARay::set_mask` for packets (src/ray/packet.rs:165). -/
def RayPkt.set_mask {n : Nat} (p : RayPkt n) (i : Fin n) (m : Nat) : RayPkt n :=
  { p with mask := Function.update p.mask i m }

/-- `SoARay::set_id` for packets (src/ray/packet.rs:168). -/
def RayPkt.set_id {n : Nat} (p : RayPkt n) (i : Fin n) (v : Nat) : RayPkt n :=
  { p with id := Function.update p.id i v }

/-- `SoARay::set_flags` for packets (src/ray/packet.rs:171). -/
def RayPkt.set_flags {n : Nat} (p : RayPkt n) (i : Fin n) (f : Nat) : RayPkt n :=
  { p with flags := Function.update p.flags i f }

/-- SoA hit packet of width `n` (`sys::RTCHit4/8/16`); `instID` models the
single row `instID: [[u32; n]; 1]` accessed as `instID[0][i]`. -/
structure HitPkt (n : Nat) where
  Ng_x : Fin n → F32
  Ng_y : Fin n → F32
  Ng_z : Fin n → F32
  u : Fin n → F32
  v : Fin n → F32
  primID : Fin n → Nat
  geomID : Fin n → Nat
  instID : Fin n → Nat

/-- Hit-packet `new` (src/ray/packet.rs:183-194): zero normal and uv, every
id `INVALID_ID`. -/
def HitPkt.new (n : Nat) : HitPkt n :=
  { Ng_x := fun _ => F32.finite 0
    Ng_y := fun _ => F32.finite 0
    Ng_z := fun _ => F32.finite 0
    u := fun _ => F32.finite 0
    v := fun _ => F32.finite 0
    primID := fun _ => INVALID_ID
    geomID := fun _ => INVALID_ID
    instID := fun _ => INVALID_ID }

/-- `SoAHit::normal` for packets (src/ray/packet.rs:210). -/
def HitPkt.normal {n : Nat} (p : HitPkt n) (i : Fin n) : V3 :=
  (p.Ng_x i, p.Ng_y i, p.Ng_z i)

/-- `SoAHit::set_normal` for packets (src/ray/packet.rs:221-225). -/
def HitPkt.set_normal {n : Nat} (p : HitPkt n) (i : Fin n) (v : V3) : HitPkt n :=
  { p with
    Ng_x := Function.update p.Ng_x i v.1
    Ng_y := Function.update p.Ng_y i v.2.1
    Ng_z := Function.update p.Ng_z i v.2.2 }

/-- `SoAHit::uv` for packets (src/ray/packet.rs:227). -/
def HitPkt.uv {n : Nat} (p : HitPkt n) (i : Fin n) : F32 × F32 := (p.u i, p.v i)

/-- `SoAHit::set_u` for packets (src/ray/packet.rs:228). -/
def HitPkt.set_u {n : Nat} (p : HitPkt n) (i : Fin n) (x : F32) : HitPkt n :=
  { p with u := Function.update p.u i x }

/-- `SoAHit::set_v` for packets (src/ray/packet.rs:229). -/
def HitPkt.set_v {n : Nat} (p : HitPkt n) (i : Fin n) (x : F32) : HitPkt n :=
  { p with v := Function.update p.v i x }

/-- `SoAHit::prim_id` for packets (src/ray/packet.rs:231). -/
def HitPkt.prim_id {n : Nat} (p : HitPkt n) (i : Fin n) : Nat := p.primID i

/-- `SoAHit::set_prim_id` for packets (src/ray/packet.rs:232). -/
def HitPkt.set_prim_id {n : Nat} (p : HitPkt n) (i : Fin n) (v : Nat) : HitPkt n :=
  { p with primID := Function.update p.primID i v }

/-- `SoAHit::geom_id` for packets (src/ray/packet.rs:234). -/
def HitPkt.geom_id {n : Nat} (p : HitPkt n) (i : Fin n) : Nat := p.geomID i

/-- `SoAHit::set_geom_id` for packets (src/ray/packet.rs:235). -/
def HitPkt.set_geom_id {n : Nat} (p : HitPkt n) (i : Fin n) (v : Nat) : HitPkt n :=
  { p with geomID := Function.update p.geomID i v }

/-- `SoAHit::inst_id` for packets (src/ray/packet.rs:237): `instID[0][i]`. -/
def HitPkt.inst_id {n : Nat} (p : HitPkt n) (i : Fin n) : Nat := p.instID i

/-- `SoAHit::set_inst_id` for packets (src/ray/packet.rs:238). -/
def HitPkt.set_inst_id {n : Nat} (p : HitPkt n) (i : Fin n) (v : Nat) : HitPkt n :=
  { p with instID := Function.update p.instID i v }

/-! ### Hit-packet validity iteration (src/ray/packet.rs:195-202) -/

/-- `iter_validity` (src/ray/packet.rs:196-198):
`self.geomID.iter().map(|g| *g != INVALID_ID)`. -/
def HitPkt.iter_validity {n : Nat} (p : HitPkt n) : List Bool :=
  (List.finRange n).map (fun i => p.geomID i != INVALID_ID)

/-- `any_hit` (src/ray/packet.rs:195): `self.iter_validity().any(|h| h)`. -/
def HitPkt.any_hit {n : Nat} (p : HitPkt n) : Bool :=
  p.iter_validity.any (fun b => b)

/-- Modelled from the spec: `SoAHitIter::new(self, w)` (soa.rs is not among
the staged files) — a lazy sequence of per-lane views, one item per lane, in
lane order `0..w`; each item is identified by its lane index. -/
def soaHitIterLanes (w : Nat) : List Nat := List.range w

/-- Modelled from the spec: `SoAHitRef::hit()` (soa.rs is not among the
staged files) — a lane view is a valid hit iff its `geomID` is not
`INVALID_ID`; a lane index outside the packet width is `false` (the real
accessor would panic there, which no use in this file reaches). -/
def HitPkt.refHit {n : Nat} (p : HitPkt n) (i : Nat) : Bool :=
  if h : i < n then p.geomID ⟨i, h⟩ != INVALID_ID else false

/-- `iter_hits` (src/ray/packet.rs:200-202):
`SoAHitIter::new(self, 4).filter(|h| h.hit())` — note the hard-coded
width 4, kept faithfully from the source. -/
def HitPkt.iter_hits {n : Nat} (p : HitPkt n) : List Nat :=
  (soaHitIterLanes 4).filter (fun i => p.refHit i)

/-! ### Runtime-width views over flat buffers

`RayN`/`HitN`/`RayHitN` borrow a raw pointer to a flat buffer of four-byte
elements together with a runtime width.  The buffer is modelled as a total
function from element offsets to four-byte words; a word is either an `f32`
value or a `u32` value (reinterpreting the bytes of one as the other is not
modelled and is never exercised here). -/

/-- A four-byte element of a flat ray/hit buffer. -/
inductive Word where
  | f : F32 → Word
  | u : Nat → Word
deriving DecidableEq

/-- Read a buffer word as `f32` (`*(ptr as *const f32)`); an integer word
would be a bit reinterpretation, which is not modelled. -/
def Word.toF : Word → F32
  | Word.f x => x
  | Word.u _ => F32.nan

/-- Read a buffer word as `u32` (`*(ptr as *const u32)`); a float word would
be a bit reinterpretation, which is not modelled. -/
def Word.toU : Word → Nat
  | Word.u v => v
  | Word.f _ => 0

/-- A single four-byte store into a flat buffer (`*ptr.add(k) = w`). -/
def storeW (buf : Nat → Word) (k : Nat) (w : Word) : Nat → Word :=
  fun j => if j = k then w else buf j

/-- Runtime-width ray view (`RayN<'a>`, src/ray/packet.rs:265-269): a raw
buffer pointer plus the width the engine supplied.  Accessors below follow
the release-build semantics (the `debug_assert` alone does not guard the
read); the debug-build variants are defined separately. -/
structure RayN where
  buf : Nat → Word
  len : Nat

/-- `RayN::org` (src/ray/packet.rs:294-304): reads offsets `i`, `len + i`,
`2*len + i`. -/
def RayN.org (r : RayN) (i : Nat) : V3 :=
  ((r.buf i).toF, (r.buf (r.len + i)).toF, (r.buf (2 * r.len + i)).toF)

/-- `RayN::set_org` (src/ray/packet.rs:306-314). -/
def RayN.set_org (r : RayN) (i : Nat) (o : V3) : RayN :=
  { r with
    buf := storeW (storeW (storeW r.buf i (Word.f o.1))
      (r.len + i) (Word.f o.2.1)) (2 * r.len + i) (Word.f o.2.2) }

/-- `RayN::dir` (src/ray/packet.rs:316-326): offsets `4*len + i`,
`5*len + i`, `6*len + i`. -/
def RayN.dir (r : RayN) (i : Nat) : V3 :=
  ((r.buf (4 * r.len + i)).toF, (r.buf (5 * r.len + i)).toF,
    (r.buf (6 * r.len + i)).toF)

/-- `RayN::set_dir` (src/ray/packet.rs:328-336). -/
def RayN.set_dir (r : RayN) (i : Nat) (d : V3) : RayN :=
  { r with
    buf := storeW (storeW (storeW r.buf (4 * r.len + i) (Word.f d.1))
      (5 * r.len + i) (Word.f d.2.1)) (6 * r.len + i) (Word.f d.2.2) }

/-- `RayN::tnear` (src/ray/packet.rs:338-341): offset `3*len + i`. -/
def RayN.tnear (r : RayN) (i : Nat) : F32 := (r.buf (3 * r.len + i)).toF

/-- `RayN::set_tnear` (src/ray/packet.rs:343-348). -/
def RayN.set_tnear (r : RayN) (i : Nat) (t : F32) : RayN :=
  { r with buf := storeW r.buf (3 * r.len + i) (Word.f t) }

/-- `RayN::tfar` (src/ray/packet.rs:350-353): offset `8*len + i`. -/
def RayN.tfar (r : RayN) (i : Nat) : F32 := (r.buf (8 * r.len + i)).toF

/-- `RayN::set_tfar` (src/ray/packet.rs:355-360). -/
def RayN.set_tfar (r : RayN) (i : Nat) (t : F32) : RayN :=
  { r with buf := storeW r.buf (8 * r.len + i) (Word.f t) }

/-- `RayN::time` (src/ray/packet.rs:362-365): offset `7*len + i`. -/
def RayN.time (r : RayN) (i : Nat) : F32 := (r.buf (7 * r.len + i)).toF

/-- `RayN::set_time` (src/ray/packet.rs:367-372). -/
def RayN.set_time (r : RayN) (i : Nat) (t : F32) : RayN :=
  { r with buf := storeW r.buf (7 * r.len + i) (Word.f t) }

/-- `RayN::mask` (src/ray/packet.rs:374-377): offset `9*len + i`, read as
`u32`. -/
def RayN.mask (r : RayN) (i : Nat) : Nat := (r.buf (9 * r.len + i)).toU

/-- `RayN::set_mask` (src/ray/packet.rs:379-384). -/
def RayN.set_mask (r : RayN) (i : Nat) (m : Nat) : RayN :=
  { r with buf := storeW r.buf (9 * r.len + i) (Word.u m) }

/-- `RayN::id` (src/ray/packet.rs:386-389): offset `10*len + i`. -/
def RayN.id (r : RayN) (i : Nat) : Nat := (r.buf (10 * r.len + i)).toU

/-- `RayN::set_id` (src/ray/packet.rs:391-396). -/
def RayN.set_id (r : RayN) (i : Nat) (v : Nat) : RayN :=
  { r with buf := storeW r.buf (10 * r.len + i) (Word.u v) }

/-- `RayN::flags` (src/ray/packet.rs:398-401): offset `11*len + i`. -/
def RayN.flags (r : RayN) (i : Nat) : Nat := (r.buf (11 * r.len + i)).toU

/-- `RayN::set_flags` (src/ray/packet.rs:403-408). -/
def RayN.set_flags (r : RayN) (i : Nat) (f : Nat) : RayN :=
  { r with buf := storeW r.buf (11 * r.len + i) (Word.u f) }

/-- `RayN::hit_point` (src/ray/packet.rs:281-290):
`org(i) + dir(i) * tfar(i)` componentwise. -/
def RayN.hit_point (r : RayN) (i : Nat) : V3 :=
  let p := r.org i
  let d := r.dir i
  let t := r.tfar i
  (f32add p.1 (f32mul d.1 t), f32add p.2.1 (f32mul d.2.1 t),
    f32add p.2.2 (f32mul d.2.2 t))

/-- Runtime-width hit view (`HitN<'a>`, src/ray/packet.rs:416-420). -/
structure HitN where
  buf : Nat → Word
  len : Nat

/-- `HitN::normal` (src/ray/packet.rs:423-432): offsets `i`, `len + i`,
`2*len + i`. -/
def HitN.normal (h : HitN) (i : Nat) : V3 :=
  ((h.buf i).toF, (h.buf (h.len + i)).toF, (h.buf (2 * h.len + i)).toF)

/-- `HitN::set_normal` (src/ray/packet.rs:436-444). -/
def HitN.set_normal (h : HitN) (i : Nat) (v : V3) : HitN :=
  { h with
    buf := storeW (storeW (storeW h.buf i (Word.f v.1))
      (h.len + i) (Word.f v.2.1)) (2 * h.len + i) (Word.f v.2.2) }

/-- `HitN::uv` (src/ray/packet.rs:446-454): offsets `3*len + i`,
`4*len + i`. -/
def HitN.uv (h : HitN) (i : Nat) : F32 × F32 :=
  ((h.buf (3 * h.len + i)).toF, (h.buf (4 * h.len + i)).toF)

/-- `HitN::set_u` (src/ray/packet.rs:456-461). -/
def HitN.set_u (h : HitN) (i : Nat) (x : F32) : HitN :=
  { h with buf := storeW h.buf (3 * h.len + i) (Word.f x) }

/-- `HitN::set_v` (src/ray/packet.rs:463-468). -/
def HitN.set_v (h : HitN) (i : Nat) (x : F32) : HitN :=
  { h with buf := storeW h.buf (4 * h.len + i) (Word.f x) }

/-- `HitN::prim_id` (src/ray/packet.rs:470-473): offset `5*len + i`. -/
def HitN.prim_id (h : HitN) (i : Nat) : Nat := (h.buf (5 * h.len + i)).toU

/-- `HitN::set_prim_id` (src/ray/packet.rs:475-480). -/
def HitN.set_prim_id (h : HitN) (i : Nat) (v : Nat) : HitN :=
  { h with buf := storeW h.buf (5 * h.len + i) (Word.u v) }

/-- `HitN::geom_id` (src/ray/packet.rs:482-485): offset `6*len + i`. -/
def HitN.geom_id (h : HitN) (i : Nat) : Nat := (h.buf (6 * h.len + i)).toU

/-- `HitN::set_geom_id` (src/ray/packet.rs:487-492). -/
def HitN.set_geom_id (h : HitN) (i : Nat) (v : Nat) : HitN :=
  { h with buf := storeW h.buf (6 * h.len + i) (Word.u v) }

/-- `HitN::inst_id` (src/ray/packet.rs:494-497): offset `7*len + i`. -/
def HitN.inst_id (h : HitN) (i : Nat) : Nat := (h.buf (7 * h.len + i)).toU

/-- `HitN::set_inst_id` (src/ray/packet.rs:499-504). -/
def HitN.set_inst_id (h : HitN) (i : Nat) (v : Nat) : HitN :=
  { h with buf := storeW h.buf (7 * h.len + i) (Word.u v) }

/-- Runtime-width combined ray/hit view (`RayHitN<'a>`,
src/ray/packet.rs:518-522). -/
structure RayHitN where
  buf : Nat → Word
  len : Nat

/-- `RayHitN::ray_n` (src/ray/packet.rs:526-532): the ray sub-view starts at
the same pointer. -/
def RayHitN.ray_n (rh : RayHitN) : RayN := { buf := rh.buf, len := rh.len }

/-- `RayHitN::hit_n` (src/ray/packet.rs:535-541): the hit sub-view starts
`12 * len` four-byte elements past the ray region
(`(self.ptr as *const u32).add(12 * self.len)`). -/
def RayHitN.hit_n (rh : RayHitN) : HitN :=
  { buf := fun k => rh.buf (12 * rh.len + k), len := rh.len }

/-! ### Memory images of the fixed-width packets

The byte layout of the `sys::RTCRay4/8/16` and `sys::RTCHit4/8/16` structs is
owned by the `sys` FFI crate, which is not among the staged files; the
specification pins it (spec section 3 and 4.2): for rays the per-field blocks
follow in the order org_x, org_y, org_z, tnear, dir_x, dir_y, dir_z, time,
tfar, mask, id, flags, each block holding the `n` lanes contiguously, and for
hits Ng_x, Ng_y, Ng_z, u, v, primID, geomID, instID.  The definitions below
are that layout, written against which the runtime views are compared. -/

/-- Modelled from the spec: the word the ray layout places in field block
`f` at lane `i` (ray field order of spec section 3). -/
def rayFieldWord {n : Nat} (p : RayPkt n) (f : Nat) (i : Fin n) : Word :=
  match f with
  | 0 => Word.f (p.org_x i)
  | 1 => Word.f (p.org_y i)
  | 2 => Word.f (p.org_z i)
  | 3 => Word.f (p.tnear i)
  | 4 => Word.f (p.dir_x i)
  | 5 => Word.f (p.dir_y i)
  | 6 => Word.f (p.dir_z i)
  | 7 => Word.f (p.time i)
  | 8 => Word.f (p.tfar i)
  | 9 => Word.u (p.mask i)
  | 10 => Word.u (p.id i)
  | 11 => Word.u (p.flags i)
  | _ => Word.u 0

/-- Modelled from the spec: the flat memory image of a fixed-width ray
packet, one four-byte word per element offset (`sys` struct layout as the
spec fixes it; offsets at or past `12 * n` are outside the record). -/
def serializeRayPkt {n : Nat} (p : RayPkt n) : Nat → Word :=
  fun k =>
    if h : 0 < n then rayFieldWord p (k / n) ⟨k % n, Nat.mod_lt k h⟩
    else Word.u 0

/-- Modelled from the spec: the word the hit layout places in field block
`f` at lane `i` (hit field order of spec section 3). -/
def hitFieldWord {n : Nat} (p : HitPkt n) (f : Nat) (i : Fin n) : Word :=
  match f with
  | 0 => Word.f (p.Ng_x i)
  | 1 => Word.f (p.Ng_y i)
  | 2 => Word.f (p.Ng_z i)
  | 3 => Word.f (p.u i)
  | 4 => Word.f (p.v i)
  | 5 => Word.u (p.primID i)
  | 6 => Word.u (p.geomID i)
  | 7 => Word.u (p.instID i)
  | _ => Word.u 0

/-- Modelled from the spec: the flat memory image of a fixed-width hit
packet. -/
def serializeHitPkt {n : Nat} (p : HitPkt n) : Nat → Word :=
  fun k =>
    if h : 0 < n then hitFieldWord p (k / n) ⟨k % n, Nat.mod_lt k h⟩
    else Word.u 0

/-- Modelled from the spec: the flat memory image of a combined fixed-width
ray/hit packet — the ray region (`12 * n` words) followed by the hit
region. -/
def serializeRayHitPkt {n : Nat} (p : RayPkt n) (hp : HitPkt n) : Nat → Word :=
  fun k => if k < 12 * n then serializeRayPkt p k else serializeHitPkt hp (k - 12 * n)

/-! ### Field dispatchers

To state per-field properties ("for every field X ...") once, the fields of
a ray record and of a hit record are reified as small enumerations and the
per-field accessors above are dispatched over them.  The per-field accessors
remain the source translation; these dispatchers only select among them. -/

/-- The per-lane fields of a ray record. -/
inductive RayField where
  | org | dir | tnear | tfar | time | mask | id | flags
deriving DecidableEq

/-- Value type of each ray field (`[f32; 3]`, `f32`, or `u32`). -/
def RayField.Ty : RayField → Type
  | RayField.org => V3
  | RayField.dir => V3
  | RayField.tnear => F32
  | RayField.tfar => F32
  | RayField.time => F32
  | RayField.mask => Nat
  | RayField.id => Nat
  | RayField.flags => Nat

/-- Dispatch to the packet getter of a ray field. -/
def RayPkt.get {n : Nat} (p : RayPkt n) : (fld : RayField) → Fin n → fld.Ty
  | RayField.org => p.org
  | RayField.dir => p.dir
  | RayField.tnear => p.tnear
  | RayField.tfar => p.tfar
  | RayField.time => p.time
  | RayField.mask => p.mask
  | RayField.id => p.id
  | RayField.flags => p.flags

/-- Dispatch to the packet setter of a ray field. -/
def RayPkt.set {n : Nat} (p : RayPkt n) : (fld : RayField) → Fin n → fld.Ty → RayPkt n
  | RayField.org => p.set_org
  | RayField.dir => p.set_dir
  | RayField.tnear => p.set_tnear
  | RayField.tfar => p.set_tfar
  | RayField.time => p.set_time
  | RayField.mask => p.set_mask
  | RayField.id => p.set_id
  | RayField.flags => p.set_flags

/-- Dispatch to the runtime-view getter of a ray field (release-build
semantics). -/
def RayN.get (r : RayN) : (fld : RayField) → Nat → fld.Ty
  | RayField.org => r.org
  | RayField.dir => r.dir
  | RayField.tnear => r.tnear
  | RayField.tfar => r.tfar
  | RayField.time => r.time
  | RayField.mask => r.mask
  | RayField.id => r.id
  | RayField.flags => r.flags

/-- Dispatch to the runtime-view setter of a ray field (release-build
semantics). -/
def RayN.set (r : RayN) : (fld : RayField) → Nat → fld.Ty → RayN
  | RayField.org => r.set_org
  | RayField.dir => r.set_dir
  | RayField.tnear => r.set_tnear
  | RayField.tfar => r.set_tfar
  | RayField.time => r.set_time
  | RayField.mask => r.set_mask
  | RayField.id => r.set_id
  | RayField.flags => r.set_flags

/-- The per-lane fields of a hit record (`u` and `v` are separate stored
arrays; the source reads them jointly through `uv`). -/
inductive HitField where
  | normal | u | v | primID | geomID | instID
deriving DecidableEq

/-- Value type of each hit field. -/
def HitField.Ty : HitField → Type
  | HitField.normal => V3
  | HitField.u => F32
  | HitField.v => F32
  | HitField.primID => Nat
  | HitField.geomID => Nat
  | HitField.instID => Nat

/-- Dispatch to the packet getter of a hit field (`u`/`v` through the `uv`
accessor of the source). -/
def HitPkt.get {n : Nat} (p : HitPkt n) : (fld : HitField) → Fin n → fld.Ty
  | HitField.normal => p.normal
  | HitField.u => fun i => (p.uv i).1
  | HitField.v => fun i => (p.uv i).2
  | HitField.primID => p.prim_id
  | HitField.geomID => p.geom_id
  | HitField.instID => p.inst_id

/-- Dispatch to the packet setter of a hit field. -/
def HitPkt.set {n : Nat} (p : HitPkt n) : (fld : HitField) → Fin n → fld.Ty → HitPkt n
  | HitField.normal => p.set_normal
  | HitField.u => p.set_u
  | HitField.v => p.set_v
  | HitField.primID => p.set_prim_id
  | HitField.geomID => p.set_geom_id
  | HitField.instID => p.set_inst_id

/-- Dispatch to the runtime-view getter of a hit field (release-build
semantics). -/
def HitN.get (h : HitN) : (fld : HitField) → Nat → fld.Ty
  | HitField.normal => h.normal
  | HitField.u => fun i => (h.uv i).1
  | HitField.v => fun i => (h.uv i).2
  | HitField.primID => h.prim_id
  | HitField.geomID => h.geom_id
  | HitField.instID => h.inst_id

/-- Dispatch to the runtime-view setter of a hit field (release-build
semantics). -/
def HitN.set (h : HitN) : (fld : HitField) → Nat → fld.Ty → HitN
  | HitField.normal => h.set_normal
  | HitField.u => h.set_u
  | HitField.v => h.set_v
  | HitField.primID => h.set_prim_id
  | HitField.geomID => h.set_geom_id
  | HitField.instID => h.set_inst_id

/-! ### Checked access: array bounds panics and debug assertions

Fixed-width packet accessors index Rust arrays (`self.tnear[i]`), whose
bounds check Rust performs in every build; an out-of-width lane panics in
debug and release alike.  The `Option`-valued accessors below model that
panic as `none`.  Runtime-view accessors instead guard the raw read with
`debug_assert!(i < self.len)` only: the `Option`-valued view accessors model
the debug build, while the total accessors above are the release build, in
which the read happens unconditionally. -/

/-- Fixed-width ray-packet getter at a raw lane index: Rust array indexing,
`none` is the bounds panic (present in every build). -/
def RayPkt.getAt {n : Nat} (p : RayPkt n) (fld : RayField) (i : Nat) :
    Option fld.Ty :=
  if h : i < n then some (p.get fld ⟨i, h⟩) else none

/-- Fixed-width ray-packet setter at a raw lane index: `none` is the bounds
panic (present in every build). -/
def RayPkt.setAt {n : Nat} (p : RayPkt n) (fld : RayField) (i : Nat)
    (v : fld.Ty) : Option (RayPkt n) :=
  if h : i < n then some (p.set fld ⟨i, h⟩ v) else none

/-- Fixed-width hit-packet getter at a raw lane index. -/
def HitPkt.getAt {n : Nat} (p : HitPkt n) (fld : HitField) (i : Nat) :
    Option fld.Ty :=
  if h : i < n then some (p.get fld ⟨i, h⟩) else none

/-- Fixed-width hit-packet setter at a raw lane index. -/
def HitPkt.setAt {n : Nat} (p : HitPkt n) (fld : HitField) (i : Nat)
    (v : fld.Ty) : Option (HitPkt n) :=
  if h : i < n then some (p.set fld ⟨i, h⟩ v) else none

/-- Debug-build runtime-view ray getter: the `debug_assert` fails (`none`)
for a lane at or past the declared width, otherwise the read proceeds. -/
def RayN.getDbg (r : RayN) (fld : RayField) (i : Nat) : Option fld.Ty :=
  if i < r.len then some (r.get fld i) else none

/-- Debug-build runtime-view ray setter. -/
def RayN.setDbg (r : RayN) (fld : RayField) (i : Nat) (v : fld.Ty) :
    Option RayN :=
  if i < r.len then some (r.set fld i v) else none

/-- Debug-build runtime-view hit getter. -/
def HitN.getDbg (h : HitN) (fld : HitField) (i : Nat) : Option fld.Ty :=
  if i < h.len then some (h.get fld i) else none

/-- Debug-build runtime-view hit setter. -/
def HitN.setDbg (h : HitN) (fld : HitField) (i : Nat) (v : fld.Ty) :
    Option HitN :=
  if i < h.len then some (h.set fld i v) else none

/-! ## Helper lemmas -/

/-- Reading the memory image of a ray packet at offset `f * n + i` hits field
block `f` at lane `i`. -/
theorem serRay_at {n : Nat} (p : RayPkt n) (f : Nat) (i : Fin n) :
    serializeRayPkt p (f * n + i.val) = rayFieldWord p f i := by
  have hn : 0 < n := i.pos
  have hd : (f * n + i.val) / n = f := by
    rw [Nat.add_comm, Nat.add_mul_div_right _ _ hn, Nat.div_eq_of_lt i.isLt,
      Nat.zero_add]
  have hm : (f * n + i.val) % n = i.val := by
    rw [Nat.add_comm, Nat.add_mul_mod_self_right, Nat.mod_eq_of_lt i.isLt]
  simp only [serializeRayPkt, dif_pos hn, hd, hm, Fin.eta]

/-- Reading the memory image of a hit packet at offset `f * n + i` hits field
block `f` at lane `i`. -/
theorem serHit_at {n : Nat} (p : HitPkt n) (f : Nat) (i : Fin n) :
    serializeHitPkt p (f * n + i.val) = hitFieldWord p f i := by
  have hn : 0 < n := i.pos
  have hd : (f * n + i.val) / n = f := by
    rw [Nat.add_comm, Nat.add_mul_div_right _ _ hn, Nat.div_eq_of_lt i.isLt,
      Nat.zero_add]
  have hm : (f * n + i.val) % n = i.val := by
    rw [Nat.add_comm, Nat.add_mul_mod_self_right, Nat.mod_eq_of_lt i.isLt]
  simp only [serializeHitPkt, dif_pos hn, hd, hm, Fin.eta]

/-- Offsets below `12 * n` in a combined ray/hit image fall in the ray
region. -/
theorem serRayHit_lo {n : Nat} (p : RayPkt n) (hp : HitPkt n) (k : Nat)
    (h : k < 12 * n) : serializeRayHitPkt p hp k = serializeRayPkt p k :=
  if_pos h

/-- Offsets at or past `12 * n` in a combined ray/hit image fall in the hit
region. -/
theorem serRayHit_hi {n : Nat} (p : RayPkt n) (hp : HitPkt n) (k : Nat)
    (h : ¬ k < 12 * n) : serializeRayHitPkt p hp k = serializeHitPkt hp (k - 12 * n) :=
  if_neg h

/-! ## Claim theorems -/

/-- C4.  The extension accessors return `None` exactly when no extension
exists: `Ray::as_ext`/`as_ext_mut` and `IntersectContext::as_extended`/
`as_mut_extended` are always `None`, while `IntersectContextExt<E>` always
answers `Some` of the stored extension. -/
theorem c4_extension_accessors :
    ∀ (r : Ray) (c : IntersectContext) (E : Type) (ce : IntersectContextExt E),
      r.as_ext = none ∧ r.as_ext_mut = none ∧
      c.as_extended = none ∧ c.as_mut_extended = none ∧
      ce.as_extended = some ce.ext ∧ ce.as_mut_extended = some ce.ext := by
  intro r c E ce
  exact ⟨rfl, rfl, rfl, rfl, rfl, rfl⟩

/-- C5.  `Hit::default()` is the canonical no-intersection sentinel (all
three ids `INVALID_ID`), `RayHit::is_valid` holds exactly when
`hit.geomID != INVALID_ID`, and `RayHit::new` (which installs the default
hit) is not valid. -/
theorem c5_hit_default_sentinel :
    ∀ (rh : RayHit) (r : Ray),
      Hit.default.geomID = INVALID_ID ∧
      Hit.default.primID = INVALID_ID ∧
      Hit.default.instID = INVALID_ID ∧
      (rh.is_valid = true ↔ rh.hit.geomID ≠ INVALID_ID) ∧
      (RayHit.new r).is_valid = false := by
  intro rh r
  refine ⟨rfl, rfl, rfl, ?_, ?_⟩
  · simp [RayHit.is_valid]
  · simp [RayHit.new, RayHit.is_valid, Hit.default]

/-- C10.  On a `RayHit`, the `AsRay` implementation's `as_ext`/`as_ext_mut`
always answer `Some` of the contained `Hit`, while the `AsRayHit`
implementation's `as_ext`/`as_ext_mut` on the same value always answer
`None`: which trait the caller goes through decides whether an extension is
reported. -/
theorem c10_rayhit_ext_depends_on_trait :
    ∀ (rh : RayHit),
      rh.asRay_as_ext = some rh.hit ∧
      rh.asRay_as_ext_mut = some rh.hit ∧
      rh.asRayHit_as_ext = none ∧
      rh.asRayHit_as_ext_mut = none := by
  intro rh
  exact ⟨rfl, rfl, rfl, rfl⟩

/-- C2 evaluation.  `iter_hits` on `Hit8` scans only lanes `0..4`
(`SoAHitIter::new(self, 4)` is hard-coded in the source): for the `Hit8`
whose only valid lane is lane 5, `any_hit()` is `true`, lane 5 is a valid
hit, yet `iter_hits()` yields nothing. -/
theorem c2_iter_hits_misses_lane_five :
    ((HitPkt.new 8).set_geom_id (5 : Fin 8) 7).any_hit = true ∧
    ((HitPkt.new 8).set_geom_id (5 : Fin 8) 7).refHit 5 = true ∧
    ((HitPkt.new 8).set_geom_id (5 : Fin 8) 7).iter_hits = [] := by
  refine ⟨by decide, by decide, by decide⟩

/-- C6.  For every width, `new(origins, dirs)` reads back the given origins
and directions with the default interval `[0, +inf)`, all-ones mask, zero
id, flags and time — for the scalar `Ray` (width 1) and for every packet
lane alike — and `empty()` yields zero origin and direction in every lane
with the same default interval `tnear = 0`, `tfar = +inf`. -/
theorem c6_new_and_empty_defaults :
    ∀ (n : Nat) (os ds : Fin n → V3) (i : Nat) (h : i < n) (o d : V3),
      (Ray.new o d).org = o ∧
      (Ray.new o d).dir = d ∧
      (Ray.new o d).tnear = F32.finite 0 ∧
      (Ray.new o d).tfar = F32.inf ∧
      (Ray.new o d).mask = u32MAX ∧
      (Ray.new o d).id = 0 ∧
      (Ray.new o d).flags = 0 ∧
      (Ray.new o d).time = F32.finite 0 ∧
      (RayPkt.new os ds).org ⟨i, h⟩ = os ⟨i, h⟩ ∧
      (RayPkt.new os ds).dir ⟨i, h⟩ = ds ⟨i, h⟩ ∧
      (RayPkt.new os ds).tnear ⟨i, h⟩ = F32.finite 0 ∧
      (RayPkt.new os ds).tfar ⟨i, h⟩ = F32.inf ∧
      (RayPkt.new os ds).mask ⟨i, h⟩ = u32MAX ∧
      (RayPkt.new os ds).id ⟨i, h⟩ = 0 ∧
      (RayPkt.new os ds).flags ⟨i, h⟩ = 0 ∧
      (RayPkt.new os ds).time ⟨i, h⟩ = F32.finite 0 ∧
      (RayPkt.empty n).org ⟨i, h⟩ = (F32.finite 0, F32.finite 0, F32.finite 0) ∧
      (RayPkt.empty n).dir ⟨i, h⟩ = (F32.finite 0, F32.finite 0, F32.finite 0) ∧
      (RayPkt.empty n).tnear ⟨i, h⟩ = F32.finite 0 ∧
      (RayPkt.empty n).tfar ⟨i, h⟩ = F32.inf := by
  intro n os ds i h o d
  refine ⟨rfl, rfl, rfl, rfl, rfl, rfl, rfl, rfl, ?_, ?_, rfl, rfl, rfl, rfl,
    rfl, rfl, rfl, rfl, rfl, rfl⟩
  · rfl
  · rfl

/-- C6 witness: the packet round-trip at width 4, lane 0, with a concrete
origin. -/
theorem c6_new_and_empty_defaults_witness :
    (RayPkt.new (n := 4)
        (fun _ => (F32.finite 1, F32.finite 2, F32.finite 3))
        (fun _ => (F32.finite 4, F32.finite 5, F32.finite 6))).org
        ⟨0, by decide⟩ =
      (F32.finite 1, F32.finite 2, F32.finite 3) :=
  (c6_new_and_empty_defaults 4
    (fun _ => (F32.finite 1, F32.finite 2, F32.finite 3))
    (fun _ => (F32.finite 4, F32.finite 5, F32.finite 6)) 0 (by decide)
    (F32.finite 0, F32.finite 0, F32.finite 0)
    (F32.finite 0, F32.finite 0, F32.finite 0)).2.2.2.2.2.2.2.2.1

/-- C8.  The derived hit point is `org + dir * tfar` componentwise in every
representation: a runtime view whose stored `org`, `dir` and `tfar` at lane
`i` equal those of a scalar `RayHit` computes the identical hit point, and
on origin `(0,0,0)`, direction `(1,0,0)`, `tfar = 2` both the scalar record
and a width-1 runtime view over the serialized packet yield `(2,0,0)`. -/
theorem c8_hit_point_agreement :
    ∀ (rh : RayHit) (r : RayN) (i : Nat)
      (h1 : r.org i = rh.ray.org) (h2 : r.dir i = rh.ray.dir)
      (h3 : r.tfar i = rh.ray.tfar),
      r.hit_point i = rh.hit_point ∧
      (RayHit.new (Ray.segment (F32.finite 0, F32.finite 0, F32.finite 0)
          (F32.finite 1, F32.finite 0, F32.finite 0) (F32.finite 0)
          (F32.finite 2))).hit_point =
        (F32.finite 2, F32.finite 0, F32.finite 0) ∧
      (RayN.mk (serializeRayPkt (RayPkt.segment (n := 1)
          (fun _ => (F32.finite 0, F32.finite 0, F32.finite 0))
          (fun _ => (F32.finite 1, F32.finite 0, F32.finite 0))
          (fun _ => F32.finite 0) (fun _ => F32.finite 2))) 1).hit_point 0 =
        (F32.finite 2, F32.finite 0, F32.finite 0) := by
  intro rh r i h1 h2 h3
  refine ⟨?_, by decide, by decide⟩
  have e1 : (r.buf i).toF = rh.ray.org_x := congrArg Prod.fst h1
  have e2 : (r.buf (r.len + i)).toF = rh.ray.org_y :=
    congrArg (fun p : V3 => p.2.1) h1
  have e3 : (r.buf (2 * r.len + i)).toF = rh.ray.org_z :=
    congrArg (fun p : V3 => p.2.2) h1
  have f1 : (r.buf (4 * r.len + i)).toF = rh.ray.dir_x := congrArg Prod.fst h2
  have f2 : (r.buf (5 * r.len + i)).toF = rh.ray.dir_y :=
    congrArg (fun p : V3 => p.2.1) h2
  have f3 : (r.buf (6 * r.len + i)).toF = rh.ray.dir_z :=
    congrArg (fun p : V3 => p.2.2) h2
  have g1 : (r.buf (8 * r.len + i)).toF = rh.ray.tfar := h3
  simp only [RayN.hit_point, RayHit.hit_point, RayN.org, RayN.dir, RayN.tfar,
    e1, e2, e3, f1, f2, f3, g1]

/-- C8 witness: the view/scalar agreement applied to the concrete width-1
serialized buffer against the matching scalar record. -/
theorem c8_hit_point_agreement_witness :
    (RayN.mk (serializeRayPkt (RayPkt.segment (n := 1)
        (fun _ => (F32.finite 0, F32.finite 0, F32.finite 0))
        (fun _ => (F32.finite 1, F32.finite 0, F32.finite 0))
        (fun _ => F32.finite 0) (fun _ => F32.finite 2))) 1).hit_point 0 =
      (RayHit.new (Ray.segment (F32.finite 0, F32.finite 0, F32.finite 0)
        (F32.finite 1, F32.finite 0, F32.finite 0) (F32.finite 0)
        (F32.finite 2))).hit_point :=
  (c8_hit_point_agreement
    (RayHit.new (Ray.segment (F32.finite 0, F32.finite 0, F32.finite 0)
      (F32.finite 1, F32.finite 0, F32.finite 0) (F32.finite 0)
      (F32.finite 2)))
    (RayN.mk (serializeRayPkt (RayPkt.segment (n := 1)
      (fun _ => (F32.finite 0, F32.finite 0, F32.finite 0))
      (fun _ => (F32.finite 1, F32.finite 0, F32.finite 0))
      (fun _ => F32.finite 0) (fun _ => F32.finite 2))) 1) 0
    (by decide) (by decide) (by decide)).1

/-- C1.  Runtime-view layout: every view getter reads, and every view setter
writes, the flat buffer at element offset `field_index * N + i` in the fixed
field order (rays: org_x, org_y, org_z, tnear, dir_x, dir_y, dir_z, time,
tfar, mask, id, flags at indices 0..11; hits: Ng_x, Ng_y, Ng_z, u, v,
primID, geomID, instID at indices 0..7); `RayHitN::hit_n` starts `12 * N`
four-byte elements past the ray region; consequently every field read
through a runtime view of width `N` over the memory image of a fixed-width
packet equals the packet's own accessor. -/
theorem c1_runtime_view_layout :
    ∀ (n : Nat) (p : RayPkt n) (hp : HitPkt n) (i : Nat) (h : i < n)
      (r : RayN) (hv : HitN) (hri : i < r.len) (hhi : i < hv.len)
      (t : F32) (m : Nat) (o : V3),
      (∀ fld : RayField,
        (RayN.mk (serializeRayPkt p) n).get fld i = p.get fld ⟨i, h⟩) ∧
      (∀ fld : HitField,
        (HitN.mk (serializeHitPkt hp) n).get fld i = hp.get fld ⟨i, h⟩) ∧
      (∀ fld : RayField,
        (RayHitN.mk (serializeRayHitPkt p hp) n).ray_n.get fld i =
          p.get fld ⟨i, h⟩) ∧
      (∀ fld : HitField,
        (RayHitN.mk (serializeRayHitPkt p hp) n).hit_n.get fld i =
          hp.get fld ⟨i, h⟩) ∧
      (∀ (rhn : RayHitN) (k : Nat),
        rhn.hit_n.buf k = rhn.buf (12 * rhn.len + k)) ∧
      (r.set_org i o).buf i = Word.f o.1 ∧
      (r.set_org i o).buf (r.len + i) = Word.f o.2.1 ∧
      (r.set_org i o).buf (2 * r.len + i) = Word.f o.2.2 ∧
      (∀ k, k ≠ i → k ≠ r.len + i → k ≠ 2 * r.len + i →
        (r.set_org i o).buf k = r.buf k) ∧
      (r.set_tnear i t).buf (3 * r.len + i) = Word.f t ∧
      (∀ k, k ≠ 3 * r.len + i → (r.set_tnear i t).buf k = r.buf k) ∧
      (r.set_dir i o).buf (4 * r.len + i) = Word.f o.1 ∧
      (r.set_dir i o).buf (5 * r.len + i) = Word.f o.2.1 ∧
      (r.set_dir i o).buf (6 * r.len + i) = Word.f o.2.2 ∧
      (∀ k, k ≠ 4 * r.len + i → k ≠ 5 * r.len + i → k ≠ 6 * r.len + i →
        (r.set_dir i o).buf k = r.buf k) ∧
      (r.set_time i t).buf (7 * r.len + i) = Word.f t ∧
      (∀ k, k ≠ 7 * r.len + i → (r.set_time i t).buf k = r.buf k) ∧
      (r.set_tfar i t).buf (8 * r.len + i) = Word.f t ∧
      (∀ k, k ≠ 8 * r.len + i → (r.set_tfar i t).buf k = r.buf k) ∧
      (r.set_mask i m).buf (9 * r.len + i) = Word.u m ∧
      (∀ k, k ≠ 9 * r.len + i → (r.set_mask i m).buf k = r.buf k) ∧
      (r.set_id i m).buf (10 * r.len + i) = Word.u m ∧
      (∀ k, k ≠ 10 * r.len + i → (r.set_id i m).buf k = r.buf k) ∧
      (r.set_flags i m).buf (11 * r.len + i) = Word.u m ∧
      (∀ k, k ≠ 11 * r.len + i → (r.set_flags i m).buf k = r.buf k) ∧
      (hv.set_normal i o).buf i = Word.f o.1 ∧
      (hv.set_normal i o).buf (hv.len + i) = Word.f o.2.1 ∧
      (hv.set_normal i o).buf (2 * hv.len + i) = Word.f o.2.2 ∧
      (∀ k, k ≠ i → k ≠ hv.len + i → k ≠ 2 * hv.len + i →
        (hv.set_normal i o).buf k = hv.buf k) ∧
      (hv.set_u i t).buf (3 * hv.len + i) = Word.f t ∧
      (∀ k, k ≠ 3 * hv.len + i → (hv.set_u i t).buf k = hv.buf k) ∧
      (hv.set_v i t).buf (4 * hv.len + i) = Word.f t ∧
      (∀ k, k ≠ 4 * hv.len + i → (hv.set_v i t).buf k = hv.buf k) ∧
      (hv.set_prim_id i m).buf (5 * hv.len + i) = Word.u m ∧
      (∀ k, k ≠ 5 * hv.len + i → (hv.set_prim_id i m).buf k = hv.buf k) ∧
      (hv.set_geom_id i m).buf (6 * hv.len + i) = Word.u m ∧
      (∀ k, k ≠ 6 * hv.len + i → (hv.set_geom_id i m).buf k = hv.buf k) ∧
      (hv.set_inst_id i m).buf (7 * hv.len + i) = Word.u m ∧
      (∀ k, k ≠ 7 * hv.len + i → (hv.set_inst_id i m).buf k = hv.buf k) := by
  intro n p hp i h r hv hri hhi t m o
  have h0 : serializeRayPkt p i = rayFieldWord p 0 ⟨i, h⟩ := by
    have e := serRay_at p 0 ⟨i, h⟩
    simpa using e
  have h1 : serializeRayPkt p (n + i) = rayFieldWord p 1 ⟨i, h⟩ := by
    have e := serRay_at p 1 ⟨i, h⟩
    simpa using e
  have g0 : serializeHitPkt hp i = hitFieldWord hp 0 ⟨i, h⟩ := by
    have e := serHit_at hp 0 ⟨i, h⟩
    simpa using e
  have g1 : serializeHitPkt hp (n + i) = hitFieldWord hp 1 ⟨i, h⟩ := by
    have e := serHit_at hp 1 ⟨i, h⟩
    simpa using e
  refine ⟨?_, ?_, ?_, ?_, ?_, ?_, ?_, ?_, ?_, ?_, ?_, ?_, ?_, ?_, ?_, ?_, ?_,
    ?_, ?_, ?_, ?_, ?_, ?_, ?_, ?_, ?_, ?_, ?_, ?_, ?_, ?_, ?_, ?_, ?_, ?_,
    ?_, ?_, ?_, ?_⟩
  · intro fld
    cases fld
    case org =>
      simp only [RayN.get, RayN.org, RayPkt.get, RayPkt.org]
      rw [h0, h1, serRay_at p 2 ⟨i, h⟩]
      rfl
    case dir =>
      simp only [RayN.get, RayN.dir, RayPkt.get, RayPkt.dir]
      rw [serRay_at p 4 ⟨i, h⟩, serRay_at p 5 ⟨i, h⟩, serRay_at p 6 ⟨i, h⟩]
      rfl
    case tnear =>
      simp only [RayN.get, RayN.tnear, RayPkt.get]
      rw [serRay_at p 3 ⟨i, h⟩]
      rfl
    case tfar =>
      simp only [RayN.get, RayN.tfar, RayPkt.get]
      rw [serRay_at p 8 ⟨i, h⟩]
      rfl
    case time =>
      simp only [RayN.get, RayN.time, RayPkt.get]
      rw [serRay_at p 7 ⟨i, h⟩]
      rfl
    case mask =>
      simp only [RayN.get, RayN.mask, RayPkt.get]
      rw [serRay_at p 9 ⟨i, h⟩]
      rfl
    case id =>
      simp only [RayN.get, RayN.id, RayPkt.get]
      rw [serRay_at p 10 ⟨i, h⟩]
      rfl
    case flags =>
      simp only [RayN.get, RayN.flags, RayPkt.get]
      rw [serRay_at p 11 ⟨i, h⟩]
      rfl
  · intro fld
    cases fld
    case normal =>
      simp only [HitN.get, HitN.normal, HitPkt.get, HitPkt.normal]
      rw [g0, g1, serHit_at hp 2 ⟨i, h⟩]
      rfl
    case u =>
      simp only [HitN.get, HitN.uv, HitPkt.get, HitPkt.uv]
      rw [serHit_at hp 3 ⟨i, h⟩]
      rfl
    case v =>
      simp only [HitN.get, HitN.uv, HitPkt.get, HitPkt.uv]
      rw [serHit_at hp 4 ⟨i, h⟩]
      rfl
    case primID =>
      simp only [HitN.get, HitN.prim_id, HitPkt.get, HitPkt.prim_id]
      rw [serHit_at hp 5 ⟨i, h⟩]
      rfl
    case geomID =>
      simp only [HitN.get, HitN.geom_id, HitPkt.get, HitPkt.geom_id]
      rw [serHit_at hp 6 ⟨i, h⟩]
      rfl
    case instID =>
      simp only [HitN.get, HitN.inst_id, HitPkt.get, HitPkt.inst_id]
      rw [serHit_at hp 7 ⟨i, h⟩]
      rfl
  · intro fld
    cases fld
    case org =>
      simp only [RayHitN.ray_n, RayN.get, RayN.org, RayPkt.get, RayPkt.org]
      rw [serRayHit_lo p hp i (by omega), serRayHit_lo p hp (n + i) (by omega),
        serRayHit_lo p hp (2 * n + i) (by omega)]
      rw [h0, h1, serRay_at p 2 ⟨i, h⟩]
      rfl
    case dir =>
      simp only [RayHitN.ray_n, RayN.get, RayN.dir, RayPkt.get, RayPkt.dir]
      rw [serRayHit_lo p hp (4 * n + i) (by omega),
        serRayHit_lo p hp (5 * n + i) (by omega),
        serRayHit_lo p hp (6 * n + i) (by omega)]
      rw [serRay_at p 4 ⟨i, h⟩, serRay_at p 5 ⟨i, h⟩, serRay_at p 6 ⟨i, h⟩]
      rfl
    case tnear =>
      simp only [RayHitN.ray_n, RayN.get, RayN.tnear, RayPkt.get]
      rw [serRayHit_lo p hp (3 * n + i) (by omega), serRay_at p 3 ⟨i, h⟩]
      rfl
    case tfar =>
      simp only [RayHitN.ray_n, RayN.get, RayN.tfar, RayPkt.get]
      rw [serRayHit_lo p hp (8 * n + i) (by omega), serRay_at p 8 ⟨i, h⟩]
      rfl
    case time =>
      simp only [RayHitN.ray_n, RayN.get, RayN.time, RayPkt.get]
      rw [serRayHit_lo p hp (7 * n + i) (by omega), serRay_at p 7 ⟨i, h⟩]
      rfl
    case mask =>
      simp only [RayHitN.ray_n, RayN.get, RayN.mask, RayPkt.get]
      rw [serRayHit_lo p hp (9 * n + i) (by omega), serRay_at p 9 ⟨i, h⟩]
      rfl
    case id =>
      simp only [RayHitN.ray_n, RayN.get, RayN.id, RayPkt.get]
      rw [serRayHit_lo p hp (10 * n + i) (by omega), serRay_at p 10 ⟨i, h⟩]
      rfl
    case flags =>
      simp only [RayHitN.ray_n, RayN.get, RayN.flags, RayPkt.get]
      rw [serRayHit_lo p hp (11 * n + i) (by omega), serRay_at p 11 ⟨i, h⟩]
      rfl
  · intro fld
    have hi12 : ∀ j : Nat, ¬ 12 * n + j < 12 * n := by omega
    cases fld
    case normal =>
      simp only [RayHitN.hit_n, HitN.get, HitN.normal, HitPkt.get,
        HitPkt.normal]
      rw [serRayHit_hi p hp _ (hi12 i), serRayHit_hi p hp _ (hi12 (n + i)),
        serRayHit_hi p hp _ (hi12 (2 * n + i))]
      rw [show 12 * n + i - 12 * n = i from by omega,
        show 12 * n + (n + i) - 12 * n = n + i from by omega,
        show 12 * n + (2 * n + i) - 12 * n = 2 * n + i from by omega]
      rw [g0, g1, serHit_at hp 2 ⟨i, h⟩]
      rfl
    case u =>
      simp only [RayHitN.hit_n, HitN.get, HitN.uv, HitPkt.get, HitPkt.uv]
      rw [serRayHit_hi p hp _ (hi12 (3 * n + i))]
      rw [show 12 * n + (3 * n + i) - 12 * n = 3 * n + i from by omega]
      rw [serHit_at hp 3 ⟨i, h⟩]
      rfl
    case v =>
      simp only [RayHitN.hit_n, HitN.get, HitN.uv, HitPkt.get, HitPkt.uv]
      rw [serRayHit_hi p hp _ (hi12 (4 * n + i))]
      rw [show 12 * n + (4 * n + i) - 12 * n = 4 * n + i from by omega]
      rw [serHit_at hp 4 ⟨i, h⟩]
      rfl
    case primID =>
      simp only [RayHitN.hit_n, HitN.get, HitN.prim_id, HitPkt.get,
        HitPkt.prim_id]
      rw [serRayHit_hi p hp _ (hi12 (5 * n + i))]
      rw [show 12 * n + (5 * n + i) - 12 * n = 5 * n + i from by omega]
      rw [serHit_at hp 5 ⟨i, h⟩]
      rfl
    case geomID =>
      simp only [RayHitN.hit_n, HitN.get, HitN.geom_id, HitPkt.get,
        HitPkt.geom_id]
      rw [serRayHit_hi p hp _ (hi12 (6 * n + i))]
      rw [show 12 * n + (6 * n + i) - 12 * n = 6 * n + i from by omega]
      rw [serHit_at hp 6 ⟨i, h⟩]
      rfl
    case instID =>
      simp only [RayHitN.hit_n, HitN.get, HitN.inst_id, HitPkt.get,
        HitPkt.inst_id]
      rw [serRayHit_hi p hp _ (hi12 (7 * n + i))]
      rw [show 12 * n + (7 * n + i) - 12 * n = 7 * n + i from by omega]
      rw [serHit_at hp 7 ⟨i, h⟩]
      rfl
  · intro rhn k
    rfl
  · simp only [RayN.set_org, storeW]
    rw [if_neg (by omega), if_neg (by omega)]
    simp
  · simp only [RayN.set_org, storeW]
    rw [if_neg (by omega)]
    simp
  · simp only [RayN.set_org, storeW]
    simp
  · intro k k1 k2 k3
    simp only [RayN.set_org, storeW]
    rw [if_neg k3, if_neg k2, if_neg k1]
  · simp only [RayN.set_tnear, storeW]
    simp
  · intro k k1
    simp only [RayN.set_tnear, storeW]
    rw [if_neg k1]
  · simp only [RayN.set_dir, storeW]
    rw [if_neg (by omega), if_neg (by omega)]
    simp
  · simp only [RayN.set_dir, storeW]
    rw [if_neg (by omega)]
    simp
  · simp only [RayN.set_dir, storeW]
    simp
  · intro k k1 k2 k3
    simp only [RayN.set_dir, storeW]
    rw [if_neg k3, if_neg k2, if_neg k1]
  · simp only [RayN.set_time, storeW]
    simp
  · intro k k1
    simp only [RayN.set_time, storeW]
    rw [if_neg k1]
  · simp only [RayN.set_tfar, storeW]
    simp
  · intro k k1
    simp only [RayN.set_tfar, storeW]
    rw [if_neg k1]
  · simp only [RayN.set_mask, storeW]
    simp
  · intro k k1
    simp only [RayN.set_mask, storeW]
    rw [if_neg k1]
  · simp only [RayN.set_id, storeW]
    simp
  · intro k k1
    simp only [RayN.set_id, storeW]
    rw [if_neg k1]
  · simp only [RayN.set_flags, storeW]
    simp
  · intro k k1
    simp only [RayN.set_flags, storeW]
    rw [if_neg k1]
  · simp only [HitN.set_normal, storeW]
    rw [if_neg (by omega), if_neg (by omega)]
    simp
  · simp only [HitN.set_normal, storeW]
    rw [if_neg (by omega)]
    simp
  · simp only [HitN.set_normal, storeW]
    simp
  · intro k k1 k2 k3
    simp only [HitN.set_normal, storeW]
    rw [if_neg k3, if_neg k2, if_neg k1]
  · simp only [HitN.set_u, storeW]
    simp
  · intro k k1
    simp only [HitN.set_u, storeW]
    rw [if_neg k1]
  · simp only [HitN.set_v, storeW]
    simp
  · intro k k1
    simp only [HitN.set_v, storeW]
    rw [if_neg k1]
  · simp only [HitN.set_prim_id, storeW]
    simp
  · intro k k1
    simp only [HitN.set_prim_id, storeW]
    rw [if_neg k1]
  · simp only [HitN.set_geom_id, storeW]
    simp
  · intro k k1
    simp only [HitN.set_geom_id, storeW]
    rw [if_neg k1]
  · simp only [HitN.set_inst_id, storeW]
    simp
  · intro k k1
    simp only [HitN.set_inst_id, storeW]
    rw [if_neg k1]

/-- C1 witness: the serialized width-4 empty ray packet read back through a
width-4 runtime view at lane 2, `tnear` field. -/
theorem c1_runtime_view_layout_witness :
    (RayN.mk (serializeRayPkt (RayPkt.empty 4)) 4).get RayField.tnear 2 =
      (RayPkt.empty 4).get RayField.tnear ⟨2, by decide⟩ :=
  (c1_runtime_view_layout 4 (RayPkt.empty 4) (HitPkt.new 4) 2 (by decide)
    (RayN.mk (fun _ => Word.u 0) 4) (HitN.mk (fun _ => Word.u 0) 4)
    (by decide) (by decide) (F32.finite 0) 0
    (F32.finite 0, F32.finite 0, F32.finite 0)).1 RayField.tnear

/-- An option produced by a guarded dependent read is present exactly when
the guard holds. -/
theorem isSome_dite_iff {α : Type} (c : Prop) [Decidable c] (f : c → α) :
    (if h : c then some (f h) else none).isSome = true ↔ c := by
  split
  · simp [*]
  · simp [*]

/-- An option produced by a guarded read is present exactly when the guard
holds. -/
theorem isSome_ite_iff {α : Type} (c : Prop) [Decidable c] (a : α) :
    (if c then some a else none).isSome = true ↔ c := by
  split
  · simp [*]
  · simp [*]

/-- C7.  Setter/getter round-trip on fixed-width packets and runtime views:
`set_X(i, v)` followed by `X(i)` returns `v`, and the setter leaves every
other field (at any lane) and every other lane (of the same field)
unchanged. -/
theorem c7_set_get_roundtrip :
    ∀ (n : Nat) (p : RayPkt n) (hp : HitPkt n) (r : RayN) (hn : HitN)
      (fld fld2 : RayField) (g g2 : HitField) (i j : Nat)
      (hi : i < n) (hj : j < n) (ri : i < r.len) (rj : j < r.len)
      (si : i < hn.len) (sj : j < hn.len) (v : fld.Ty) (w : g.Ty),
      (p.set fld ⟨i, hi⟩ v).get fld ⟨i, hi⟩ = v ∧
      (fld2 ≠ fld →
        (p.set fld ⟨i, hi⟩ v).get fld2 ⟨j, hj⟩ = p.get fld2 ⟨j, hj⟩) ∧
      (j ≠ i → (p.set fld ⟨i, hi⟩ v).get fld ⟨j, hj⟩ = p.get fld ⟨j, hj⟩) ∧
      (hp.set g ⟨i, hi⟩ w).get g ⟨i, hi⟩ = w ∧
      (g2 ≠ g →
        (hp.set g ⟨i, hi⟩ w).get g2 ⟨j, hj⟩ = hp.get g2 ⟨j, hj⟩) ∧
      (j ≠ i → (hp.set g ⟨i, hi⟩ w).get g ⟨j, hj⟩ = hp.get g ⟨j, hj⟩) ∧
      (r.set fld i v).get fld i = v ∧
      (fld2 ≠ fld → (r.set fld i v).get fld2 j = r.get fld2 j) ∧
      (j ≠ i → (r.set fld i v).get fld j = r.get fld j) ∧
      (hn.set g i w).get g i = w ∧
      (g2 ≠ g → (hn.set g i w).get g2 j = hn.get g2 j) ∧
      (j ≠ i → (hn.set g i w).get g j = hn.get g j) := by
  intro n p hp r hn fld fld2 g g2 i j hi hj ri rj si sj v w
  refine ⟨?_, ?_, ?_, ?_, ?_, ?_, ?_, ?_, ?_, ?_, ?_, ?_⟩
  · cases fld <;>
      simp [RayPkt.get, RayPkt.set, RayPkt.org, RayPkt.set_org, RayPkt.dir,
        RayPkt.set_dir, RayPkt.set_tnear, RayPkt.set_tfar, RayPkt.set_time,
        RayPkt.set_mask, RayPkt.set_id, RayPkt.set_flags]
  · intro hne
    cases fld <;> cases fld2 <;> first | exact absurd rfl hne | rfl
  · intro hne
    cases fld <;>
      simp [RayPkt.get, RayPkt.set, RayPkt.org, RayPkt.set_org, RayPkt.dir,
        RayPkt.set_dir, RayPkt.set_tnear, RayPkt.set_tfar, RayPkt.set_time,
        RayPkt.set_mask, RayPkt.set_id, RayPkt.set_flags,
        Function.update_apply, Fin.mk.injEq, hne]
  · cases g <;>
      simp [HitPkt.get, HitPkt.set, HitPkt.normal, HitPkt.set_normal,
        HitPkt.uv, HitPkt.set_u, HitPkt.set_v, HitPkt.prim_id,
        HitPkt.set_prim_id, HitPkt.geom_id, HitPkt.set_geom_id,
        HitPkt.inst_id, HitPkt.set_inst_id]
  · intro hne
    cases g <;> cases g2 <;> first | exact absurd rfl hne | rfl
  · intro hne
    cases g <;>
      simp [HitPkt.get, HitPkt.set, HitPkt.normal, HitPkt.set_normal,
        HitPkt.uv, HitPkt.set_u, HitPkt.set_v, HitPkt.prim_id,
        HitPkt.set_prim_id, HitPkt.geom_id, HitPkt.set_geom_id,
        HitPkt.inst_id, HitPkt.set_inst_id, Function.update_apply,
        Fin.mk.injEq, hne]
  · cases fld <;>
      (simp only [RayN.get, RayN.set, RayN.org, RayN.set_org, RayN.dir,
        RayN.set_dir, RayN.tnear, RayN.set_tnear, RayN.tfar, RayN.set_tfar,
        RayN.time, RayN.set_time, RayN.mask, RayN.set_mask, RayN.id,
        RayN.set_id, RayN.flags, RayN.set_flags, storeW] <;>
       split_ifs <;> first | rfl | omega)
  · intro hne
    cases fld <;> cases fld2 <;>
      first
      | exact absurd rfl hne
      | (simp only [RayN.get, RayN.set, RayN.org, RayN.set_org, RayN.dir,
          RayN.set_dir, RayN.tnear, RayN.set_tnear, RayN.tfar, RayN.set_tfar,
          RayN.time, RayN.set_time, RayN.mask, RayN.set_mask, RayN.id,
          RayN.set_id, RayN.flags, RayN.set_flags, storeW] <;>
         split_ifs <;> first | rfl | omega)
  · intro hne
    cases fld <;>
      (simp only [RayN.get, RayN.set, RayN.org, RayN.set_org, RayN.dir,
        RayN.set_dir, RayN.tnear, RayN.set_tnear, RayN.tfar, RayN.set_tfar,
        RayN.time, RayN.set_time, RayN.mask, RayN.set_mask, RayN.id,
        RayN.set_id, RayN.flags, RayN.set_flags, storeW] <;>
       split_ifs <;> first | rfl | omega)
  · cases g <;>
      (simp only [HitN.get, HitN.set, HitN.normal, HitN.set_normal, HitN.uv,
        HitN.set_u, HitN.set_v, HitN.prim_id, HitN.set_prim_id, HitN.geom_id,
        HitN.set_geom_id, HitN.inst_id, HitN.set_inst_id, storeW] <;>
       split_ifs <;> first | rfl | omega)
  · intro hne
    cases g <;> cases g2 <;>
      first
      | exact absurd rfl hne
      | (simp only [HitN.get, HitN.set, HitN.normal, HitN.set_normal,
          HitN.uv, HitN.set_u, HitN.set_v, HitN.prim_id, HitN.set_prim_id,
          HitN.geom_id, HitN.set_geom_id, HitN.inst_id, HitN.set_inst_id,
          storeW] <;>
         split_ifs <;> first | rfl | omega)
  · intro hne
    cases g <;>
      (simp only [HitN.get, HitN.set, HitN.normal, HitN.set_normal, HitN.uv,
        HitN.set_u, HitN.set_v, HitN.prim_id, HitN.set_prim_id, HitN.geom_id,
        HitN.set_geom_id, HitN.inst_id, HitN.set_inst_id, storeW] <;>
       split_ifs <;> first | rfl | omega)

/-- C7 witness: round-trip at width 4, lane 1, `tfar`, on concrete packets
and views. -/
theorem c7_set_get_roundtrip_witness :
    ((RayPkt.empty 4).set RayField.tfar ⟨1, by decide⟩ (F32.finite 9)).get
        RayField.tfar ⟨1, by decide⟩ = F32.finite 9 :=
  (c7_set_get_roundtrip 4 (RayPkt.empty 4) (HitPkt.new 4)
    (RayN.mk (fun _ => Word.u 0) 4) (HitN.mk (fun _ => Word.u 0) 4)
    RayField.tfar RayField.mask HitField.geomID HitField.u 1 0
    (by decide) (by decide) (by decide) (by decide) (by decide) (by decide)
    (F32.finite 9) (13 : Nat)).1

/-- C9 counterexample: in the embedding of the release-build semantics,
fixed-width packet accessors do fail on an out-of-width lane — Rust array
indexing is bounds-checked in every build — so an out-of-width index on a
packet is not an unchecked precondition: there is a checked failure. -/
theorem c9_release_packet_access_checked :
    (RayPkt.empty 4).getAt RayField.tnear 4 = none ∧
    (HitPkt.new 4).getAt HitField.geomID 4 = none := by
  exact ⟨rfl, rfl⟩

/-- C9 amended.  Per-lane accessors on runtime-width views are guarded by a
debug assertion only: in the debug build every getter and setter fails
exactly when the lane is at or past the declared width, and when it succeeds
it performs exactly the unchecked release-build access.  Fixed-width packet
accessors, by contrast, index Rust arrays and therefore fail on an
out-of-width lane in every build. -/
theorem c9_bounds_check_split :
    ∀ (n : Nat) (p : RayPkt n) (hp : HitPkt n) (r : RayN) (hn : HitN)
      (fld : RayField) (g : HitField) (i : Nat) (v : fld.Ty) (w : g.Ty),
      ((p.getAt fld i).isSome = true ↔ i < n) ∧
      ((p.setAt fld i v).isSome = true ↔ i < n) ∧
      ((hp.getAt g i).isSome = true ↔ i < n) ∧
      ((hp.setAt g i w).isSome = true ↔ i < n) ∧
      ((r.getDbg fld i).isSome = true ↔ i < r.len) ∧
      ((r.setDbg fld i v).isSome = true ↔ i < r.len) ∧
      ((hn.getDbg g i).isSome = true ↔ i < hn.len) ∧
      ((hn.setDbg g i w).isSome = true ↔ i < hn.len) ∧
      (i < r.len → r.getDbg fld i = some (r.get fld i)) ∧
      (i < r.len → r.setDbg fld i v = some (r.set fld i v)) ∧
      (i < hn.len → hn.getDbg g i = some (hn.get g i)) ∧
      (i < hn.len → hn.setDbg g i w = some (hn.set g i w)) := by
  intro n p hp r hn fld g i v w
  refine ⟨isSome_dite_iff _ _, isSome_dite_iff _ _, isSome_dite_iff _ _,
    isSome_dite_iff _ _, isSome_ite_iff _ _, isSome_ite_iff _ _,
    isSome_ite_iff _ _, isSome_ite_iff _ _, ?_, ?_, ?_, ?_⟩
  · intro hlt
    simp [RayN.getDbg, hlt]
  · intro hlt
    simp [RayN.setDbg, hlt]
  · intro hlt
    simp [HitN.getDbg, hlt]
  · intro hlt
    simp [HitN.setDbg, hlt]

end EmbreeRS
